import Mathlib

/-
Verification development for the gym-frontend-app administrative console
(src/pages/UsersPage.tsx, src/pages/MembershipPlansPage.tsx,
src/pages/AttendancePage.tsx).

Each page is shallowly embedded as a state record plus state-transition
functions translated from the page's handlers.  Remote HTTP calls are
modelled by an "api" record of responses (Except AxiosError α); each
operation additionally returns the list of remote calls it issued, so that
refresh/ordering contracts can be stated about the call trace.  The
sequential `await` structure of the handlers is modelled by sequential
composition; the intra-operation behaviour of the shared loading flags is
modelled separately by small start/end event machines.

JS-specific conventions mirrored here:
  - `x || y` on strings: the empty string counts as falsy;
  - `if (err.response && err.response.data && err.response.data.message)`:
    chained truthiness, the empty message string counts as falsy;
  - `Map.get` returns the most recently `set` binding;
  - `s.substring(0, 8)` is `String.take 8`;
  - numeric fields (price) are abstracted to Int, and `parseInt`/`parseFloat`
    on unparseable input (JS NaN) is abstracted to `none`; no claim depends
    on numeric arithmetic.
-/

/-- Error payload body of a failed axios call (`err.response.data`). -/
structure ErrData where
  message : Option String
deriving Repr, DecidableEq

/-- The `err.response` object of a failed axios call. -/
structure ErrResponse where
  status : Nat
  statusText : String
  data : Option ErrData
deriving Repr, DecidableEq

/-- A failed axios call: `response` is absent on network/transport failure. -/
structure AxiosError where
  response : Option ErrResponse
deriving Repr, DecidableEq

/-- Abstraction of JS parseInt/parseFloat at the form boundary: an
unparseable value (JS NaN) becomes `none`.  No claim depends on the
numeric value. -/
def parseNumJs (s : String) : Option Int :=
  s.toInt?

namespace Plans

/-- User interface of MembershipPlansPage.tsx (userId and name only). -/
structure User where
  userId : String
  name : String
deriving Repr, DecidableEq

/-- MembershipPlan interface (price abstracted to Int). -/
structure MembershipPlan where
  planId : Nat
  planName : String
  price : Int
  durationMonths : Int
  featuresList : String
deriving Repr, DecidableEq

/-- PlanAssignmentDisplay interface (PlanAssignmentResponseDTO). -/
structure PlanAssignmentDisplay where
  assignmentId : Nat
  userName : String
  planName : String
  startDate : String
  endDate : String
  userId : Option String
  planId : Option Nat
deriving Repr, DecidableEq

/-- planFormData state (all fields are raw input strings). -/
structure PlanFormData where
  planName : String
  price : String
  durationMonths : String
  featuresList : String
deriving Repr, DecidableEq

/-- assignFormData state. -/
structure AssignFormData where
  userId : String
  planId : String
  startDate : String
deriving Repr, DecidableEq

/-- The empty plan form `{ planName: '', price: '', durationMonths: '', featuresList: '' }`. -/
def emptyPlanForm : PlanFormData :=
  { planName := "", price := "", durationMonths := "", featuresList := "" }

/-- The reset assign form; `today` is the value of format(new Date(), 'yyyy-MM-dd'). -/
def defaultAssignForm (today : String) : AssignFormData :=
  { userId := "", planId := "", startDate := today }

/-- The React state of MembershipPlansPage. -/
structure PlansState where
  plans : List MembershipPlan
  users : List User
  planAssignments : List PlanAssignmentDisplay
  loading : Bool
  error : Option String
  showPlanForm : Bool
  editingPlan : Option MembershipPlan
  planFormData : PlanFormData
  showAssignForm : Bool
  assignFormData : AssignFormData
deriving Repr, DecidableEq

/-- Initial state of MembershipPlansPage (useState initialisers; `today` is
the mount date used for the assign form default). -/
def initPlansState (today : String) : PlansState :=
  { plans := [], users := [], planAssignments := [], loading := true,
    error := none, showPlanForm := false, editingPlan := none,
    planFormData := emptyPlanForm, showAssignForm := false,
    assignFormData := defaultAssignForm today }

/-- One remote HTTP call issued by MembershipPlansPage. -/
inductive ApiCall where
  | getUsers : ApiCall
  | getAssignments (userId : String) : ApiCall
  | getPlans : ApiCall
  | postPlan : ApiCall
  | putPlan (planId : Nat) : ApiCall
  | deletePlan (planId : Nat) : ApiCall
  | postAssign : ApiCall
deriving Repr, DecidableEq

/-- Plan payload sent by handlePlanFormSubmit (price/durationMonths parsed). -/
structure PlanPayload where
  planName : String
  price : Option Int
  durationMonths : Option Int
  featuresList : String
deriving Repr, DecidableEq

/-- Assignment payload sent by handleAssignFormSubmit. -/
structure AssignPayload where
  userId : String
  planId : Option Int
  startDate : String
deriving Repr, DecidableEq

/-- Responses of the remote API as seen by MembershipPlansPage; `today`
models format(new Date(), 'yyyy-MM-dd') at the time a handler runs. -/
structure PlansApi where
  getUsers : Except AxiosError (List User)
  getAssignments : String → Except AxiosError (List PlanAssignmentDisplay)
  getPlans : Except AxiosError (List MembershipPlan)
  deletePlan : Nat → Except AxiosError Unit
  putPlan : Nat → PlanPayload → Except AxiosError Unit
  postPlan : PlanPayload → Except AxiosError Unit
  postAssign : AssignPayload → Except AxiosError Unit
  today : String

/-- fetchPlans: GET /plans; on success set plans and clear error, on failure
set the fixed error string; finally clear loading. -/
def fetchPlans (api : PlansApi) (s : PlansState) : PlansState × List ApiCall :=
  match api.getPlans with
  | .ok ps =>
      ({ s with plans := ps, error := none, loading := false }, [ApiCall.getPlans])
  | .error _ =>
      ({ s with
          error := some "Failed to load plans. Please ensure the backend is running and you are logged in.",
          loading := false }, [ApiCall.getPlans])

/-- fetchUsersForAssignment: GET /users; on success keep only userId and
name for the dropdown; a failure only logs to the console. -/
def fetchUsersForAssignment (api : PlansApi) (s : PlansState) :
    PlansState × List ApiCall :=
  match api.getUsers with
  | .ok us =>
      ({ s with users := us.map (fun u => { userId := u.userId, name := u.name }) },
        [ApiCall.getUsers])
  | .error _ => (s, [ApiCall.getUsers])

/-- The `for (const user of allUsersRes.data)` loop of fetchAllPlanAssignments:
sequentially GET each member's assignments, pushing results onto `acc`;
the first failing call aborts the loop. -/
def collectAssignments (api : PlansApi) :
    List User → List PlanAssignmentDisplay →
    Except AxiosError (List PlanAssignmentDisplay) × List ApiCall
  | [], acc => (.ok acc, [])
  | u :: rest, acc =>
    match api.getAssignments u.userId with
    | .error e => (.error e, [ApiCall.getAssignments u.userId])
    | .ok r =>
        let t := collectAssignments api rest (acc ++ r)
        (t.1, ApiCall.getAssignments u.userId :: t.2)

/-- fetchAllPlanAssignments: GET /users, then per member GET that member's
assignments, concatenating in order; only after the whole loop succeeds is
planAssignments replaced; any failure sets the fixed error string and
leaves planAssignments untouched; finally clear loading. -/
def fetchAllPlanAssignments (api : PlansApi) (s : PlansState) :
    PlansState × List ApiCall :=
  match api.getUsers with
  | .error _ =>
      ({ s with error := some "Failed to load plan assignments.", loading := false },
        [ApiCall.getUsers])
  | .ok us =>
    match collectAssignments api us [] with
    | (.error _, tr) =>
        ({ s with error := some "Failed to load plan assignments.", loading := false },
          ApiCall.getUsers :: tr)
    | (.ok asg, tr) =>
        ({ s with planAssignments := asg, loading := false },
          ApiCall.getUsers :: tr)

/-- Payload built by handlePlanFormSubmit from the current form. -/
def mkPlanPayload (fd : PlanFormData) : PlanPayload :=
  { planName := fd.planName, price := parseNumJs fd.price,
    durationMonths := parseNumJs fd.durationMonths,
    featuresList := fd.featuresList }

/-- handlePlanFormSubmit: clear error, set loading; PUT when editing, else
POST; on success hide and reset the plan form and refresh both the plan
list and the assignment aggregation; on failure set the fixed error string;
finally clear loading. -/
def handlePlanFormSubmit (api : PlansApi) (s : PlansState) :
    PlansState × List ApiCall :=
  let s0 := { s with error := none, loading := true }
  let payload := mkPlanPayload s.planFormData
  let submit : Except AxiosError Unit × ApiCall :=
    match s.editingPlan with
    | some p => (api.putPlan p.planId payload, ApiCall.putPlan p.planId)
    | none => (api.postPlan payload, ApiCall.postPlan)
  match submit.1 with
  | .ok _ =>
      let s1 := { s0 with showPlanForm := false, editingPlan := none,
                          planFormData := emptyPlanForm }
      let r2 := fetchPlans api s1
      let r3 := fetchAllPlanAssignments api r2.1
      ({ r3.1 with loading := false }, submit.2 :: (r2.2 ++ r3.2))
  | .error _ =>
      ({ s0 with error := some "Failed to save plan. Please check your input.",
                 loading := false }, [submit.2])

/-- handleEditPlanClick: load the plan into the form and show the plan form
(the assign form's visibility is not touched). -/
def handleEditPlanClick (p : MembershipPlan) (s : PlansState) : PlansState :=
  { s with editingPlan := some p,
           planFormData := { planName := p.planName, price := toString p.price,
                             durationMonths := toString p.durationMonths,
                             featuresList := p.featuresList },
           showPlanForm := true }

/-- handleDeletePlanClick: window.confirm gates everything; when confirmed,
DELETE the plan, then on success refresh both the plan list and the
assignment aggregation; on failure set the fixed error string. -/
def handleDeletePlanClick (api : PlansApi) (confirmed : Bool) (planId : Nat)
    (s : PlansState) : PlansState × List ApiCall :=
  if confirmed then
    match api.deletePlan planId with
    | .ok _ =>
        let r1 := fetchPlans api { s with loading := true }
        let r2 := fetchAllPlanAssignments api r1.1
        ({ r2.1 with loading := false }, ApiCall.deletePlan planId :: (r1.2 ++ r2.2))
    | .error _ =>
        ({ s with error := some "Failed to delete plan.", loading := false },
          [ApiCall.deletePlan planId])
  else (s, [])

/-- handleAssignFormSubmit: clear error, set loading; POST /plans/assign;
on success hide and reset the assign form, refresh the aggregation and the
user list; on failure set the fixed error string; finally clear loading. -/
def handleAssignFormSubmit (api : PlansApi) (s : PlansState) :
    PlansState × List ApiCall :=
  let s0 := { s with error := none, loading := true }
  let payload : AssignPayload :=
    { userId := s.assignFormData.userId,
      planId := parseNumJs s.assignFormData.planId,
      startDate := s.assignFormData.startDate }
  match api.postAssign payload with
  | .ok _ =>
      let s1 := { s0 with showAssignForm := false,
                          assignFormData := defaultAssignForm api.today }
      let r2 := fetchAllPlanAssignments api s1
      let r3 := fetchUsersForAssignment api r2.1
      ({ r3.1 with loading := false }, ApiCall.postAssign :: (r2.2 ++ r3.2))
  | .error _ =>
      ({ s0 with error := some "Failed to assign plan. Ensure user and plan exist.",
                 loading := false }, [ApiCall.postAssign])

/-- Toggle button "Add/Edit Plans": flip showPlanForm, clear the editing
state and the form, and hide the assign form. -/
def handleTogglePlanFormClick (s : PlansState) : PlansState :=
  { s with showPlanForm := !s.showPlanForm, editingPlan := none,
           planFormData := emptyPlanForm, showAssignForm := false }

/-- Toggle button "Assign Plan to Member": flip showAssignForm, reset the
assign form, and hide the plan form. -/
def handleToggleAssignFormClick (today : String) (s : PlansState) : PlansState :=
  { s with showAssignForm := !s.showAssignForm,
           assignFormData := defaultAssignForm today, showPlanForm := false }

/-- Cancel Edit button: clear the editing state, hide the plan form, reset
the form fields. -/
def handleCancelEditClick (s : PlansState) : PlansState :=
  { s with editingPlan := none, showPlanForm := false, planFormData := emptyPlanForm }

/-- User-interface events of MembershipPlansPage (each submit/delete runs
its handler to completion). -/
inductive PlansEvent where
  | togglePlanForm : PlansEvent
  | toggleAssignForm : PlansEvent
  | editPlanClick (p : MembershipPlan) : PlansEvent
  | planFormSubmit : PlansEvent
  | assignFormSubmit : PlansEvent
  | deletePlanClick (confirmed : Bool) (planId : Nat) : PlansEvent
  | cancelEdit : PlansEvent
deriving Repr, DecidableEq

/-- Step function of the MembershipPlansPage event machine. -/
def plansStep (api : PlansApi) (s : PlansState) : PlansEvent → PlansState
  | .togglePlanForm => handleTogglePlanFormClick s
  | .toggleAssignForm => handleToggleAssignFormClick api.today s
  | .editPlanClick p => handleEditPlanClick p s
  | .planFormSubmit => (handlePlanFormSubmit api s).1
  | .assignFormSubmit => (handleAssignFormSubmit api s).1
  | .deletePlanClick c pid => (handleDeletePlanClick api c pid s).1
  | .cancelEdit => handleCancelEditClick s

/-- Run the MembershipPlansPage event machine over a list of events. -/
def runPlans (api : PlansApi) (s : PlansState) (evs : List PlansEvent) : PlansState :=
  evs.foldl (plansStep api) s

/-- Refinement of MembershipPlansPage into start/end events of its async
operations, exposing the shared `loading` flag (which drives the disabled
attribute of both submit buttons) between the setLoading(true) at the start
of each operation and the setLoading(false) in its finally block.  The
*InFlight fields are ghost variables recording which operation is between
its start and its end. -/
structure PlansLoad where
  loading : Bool
  showPlanForm : Bool
  showAssignForm : Bool
  fetchPlansInFlight : Bool
  fetchAssignInFlight : Bool
  planSubmitInFlight : Bool
  assignSubmitInFlight : Bool
  deleteInFlight : Bool
deriving Repr, DecidableEq

/-- Initial loading machine state: useState initialises loading to true and
both forms to hidden; nothing is in flight yet. -/
def initPlansLoad : PlansLoad :=
  { loading := true, showPlanForm := false, showAssignForm := false,
    fetchPlansInFlight := false, fetchAssignInFlight := false,
    planSubmitInFlight := false, assignSubmitInFlight := false,
    deleteInFlight := false }

/-- Start/end events of the async operations of MembershipPlansPage, plus
the synchronous form toggles. -/
inductive PlansLoadEvent where
  | fetchPlansStart | fetchPlansEnd
  | fetchAssignStart | fetchAssignEnd
  | planSubmitStart | planSubmitEndSuccess | planSubmitEndFailure
  | assignSubmitStart | assignSubmitEndSuccess | assignSubmitEndFailure
  | deleteStart | deleteEnd
  | togglePlanForm | toggleAssignForm
deriving Repr, DecidableEq

/-- Step of the loading machine.  A submit can only start while its button
is enabled (loading = false, since both submit buttons carry
disabled={loading}); an end event fires only for an operation actually in
flight.  Every start sets loading true; every end is the finally block and
sets loading false. -/
def plansLoadStep (s : PlansLoad) : PlansLoadEvent → PlansLoad
  | .fetchPlansStart => { s with loading := true, fetchPlansInFlight := true }
  | .fetchPlansEnd =>
      if s.fetchPlansInFlight then
        { s with loading := false, fetchPlansInFlight := false } else s
  | .fetchAssignStart => { s with loading := true, fetchAssignInFlight := true }
  | .fetchAssignEnd =>
      if s.fetchAssignInFlight then
        { s with loading := false, fetchAssignInFlight := false } else s
  | .planSubmitStart =>
      if s.loading then s
      else { s with loading := true, planSubmitInFlight := true }
  | .planSubmitEndSuccess =>
      if s.planSubmitInFlight then
        { s with loading := false, planSubmitInFlight := false } else s
  | .planSubmitEndFailure =>
      if s.planSubmitInFlight then
        { s with loading := false, planSubmitInFlight := false } else s
  | .assignSubmitStart =>
      if s.loading then s
      else { s with loading := true, assignSubmitInFlight := true }
  | .assignSubmitEndSuccess =>
      if s.assignSubmitInFlight then
        { s with loading := false, assignSubmitInFlight := false } else s
  | .assignSubmitEndFailure =>
      if s.assignSubmitInFlight then
        { s with loading := false, assignSubmitInFlight := false } else s
  | .deleteStart => { s with loading := true, deleteInFlight := true }
  | .deleteEnd =>
      if s.deleteInFlight then
        { s with loading := false, deleteInFlight := false } else s
  | .togglePlanForm =>
      { s with showPlanForm := !s.showPlanForm, showAssignForm := false }
  | .toggleAssignForm =>
      { s with showAssignForm := !s.showAssignForm, showPlanForm := false }

/-- Run the loading machine from the initial state. -/
def runPlansLoad (evs : List PlansLoadEvent) : PlansLoad :=
  evs.foldl plansLoadStep initPlansLoad

end Plans

namespace Users

/-- User interface of UsersPage.tsx (full member record; age abstracted to Int). -/
structure User where
  userId : String
  name : String
  age : Int
  gender : String
  contactNumber : String
  membershipStatus : String
  joiningDate : String
deriving Repr, DecidableEq

/-- formData state of UsersPage (all fields are raw input strings). -/
structure UserFormData where
  name : String
  age : String
  gender : String
  contactNumber : String
  membershipStatus : String
  joiningDate : String
deriving Repr, DecidableEq

/-- The reset member form: empty fields, status Inactive, joining date =
format(new Date(), 'yyyy-MM-dd'). -/
def defaultUserForm (today : String) : UserFormData :=
  { name := "", age := "", gender := "", contactNumber := "",
    membershipStatus := "Inactive", joiningDate := today }

/-- The React state of UsersPage. -/
structure UsersState where
  users : List User
  loading : Bool
  error : Option String
  showForm : Bool
  editingUser : Option User
  formData : UserFormData
deriving Repr, DecidableEq

/-- Initial state of UsersPage. -/
def initUsersState (today : String) : UsersState :=
  { users := [], loading := true, error := none, showForm := false,
    editingUser := none, formData := defaultUserForm today }

/-- Payload built by handleFormSubmit (age parsed from the input string). -/
structure UserPayload where
  name : String
  age : Option Int
  gender : String
  contactNumber : String
  membershipStatus : String
  joiningDate : String
deriving Repr, DecidableEq

/-- Build the submit payload from the current form. -/
def mkUserPayload (fd : UserFormData) : UserPayload :=
  { name := fd.name, age := parseNumJs fd.age, gender := fd.gender,
    contactNumber := fd.contactNumber, membershipStatus := fd.membershipStatus,
    joiningDate := fd.joiningDate }

/-- One remote HTTP call issued by UsersPage. -/
inductive UCall where
  | getUsers : UCall
  | postUser : UCall
  | putUser (userId : String) : UCall
  | deleteUser (userId : String) : UCall
deriving Repr, DecidableEq

/-- Responses of the remote API as seen by UsersPage; `today` models
format(new Date(), 'yyyy-MM-dd') at the time a handler runs. -/
structure UsersApi where
  getUsers : Except AxiosError (List User)
  postUser : UserPayload → Except AxiosError Unit
  putUser : String → UserPayload → Except AxiosError Unit
  deleteUser : String → Except AxiosError Unit
  today : String

/-- fetchUsers: GET /users; on success set users and clear error, on failure
set the fixed error string; finally clear loading. -/
def fetchUsers (api : UsersApi) (s : UsersState) : UsersState × List UCall :=
  match api.getUsers with
  | .ok us =>
      ({ s with users := us, error := none, loading := false }, [UCall.getUsers])
  | .error _ =>
      ({ s with
          error := some "Failed to load users. Please ensure the backend is running and you are logged in.",
          loading := false }, [UCall.getUsers])

/-- handleFormSubmit: clear error, set loading; PUT when editing, else POST;
on success hide the form, clear the editing state, reset the form to its
defaults and re-run fetchUsers; on failure set the fixed error string and
leave form, visibility and entered values untouched; finally clear loading. -/
def handleFormSubmit (api : UsersApi) (s : UsersState) : UsersState × List UCall :=
  let s0 := { s with error := none, loading := true }
  let payload := mkUserPayload s.formData
  let submit : Except AxiosError Unit × UCall :=
    match s.editingUser with
    | some u => (api.putUser u.userId payload, UCall.putUser u.userId)
    | none => (api.postUser payload, UCall.postUser)
  match submit.1 with
  | .ok _ =>
      let s1 := { s0 with showForm := false, editingUser := none,
                          formData := defaultUserForm api.today }
      let r2 := fetchUsers api s1
      ({ r2.1 with loading := false }, submit.2 :: r2.2)
  | .error _ =>
      ({ s0 with error := some "Failed to save user. Please check your input.",
                 loading := false }, [submit.2])

/-- handleEditClick: load the member into the form and show it. -/
def handleEditClick (u : User) (s : UsersState) : UsersState :=
  { s with editingUser := some u,
           formData := { name := u.name, age := toString u.age,
                         gender := u.gender, contactNumber := u.contactNumber,
                         membershipStatus := u.membershipStatus,
                         joiningDate := u.joiningDate },
           showForm := true }

/-- handleDeleteClick: window.confirm gates everything; when confirmed,
DELETE the member, then on success re-run fetchUsers; on failure set the
fixed error string. -/
def handleDeleteClick (api : UsersApi) (confirmed : Bool) (userId : String)
    (s : UsersState) : UsersState × List UCall :=
  if confirmed then
    match api.deleteUser userId with
    | .ok _ =>
        let r := fetchUsers api { s with loading := true }
        ({ r.1 with loading := false }, UCall.deleteUser userId :: r.2)
    | .error _ =>
        ({ s with error := some "Failed to delete user.", loading := false },
          [UCall.deleteUser userId])
  else (s, [])

end Users

namespace Attendance

/-- User interface of AttendancePage.tsx (userId and name for the map). -/
structure User where
  userId : String
  name : String
deriving Repr, DecidableEq

/-- AttendanceRecordDisplay interface (AttendanceResponseDTO). -/
structure AttendanceRecordDisplay where
  attendanceId : Nat
  userId : String
  userName : String
  checkInTime : String
deriving Repr, DecidableEq

/-- Response body of POST /attendance/checkin. -/
structure CheckinResponse where
  userId : String
  checkInTime : String
deriving Repr, DecidableEq

/-- The React state of AttendancePage; usersMap is the JS Map modelled as
the list of (userId, userName) insertions, in insertion order. -/
structure AttendanceState where
  userIdInput : String
  checkInMessage : Option String
  checkInError : Option String
  loadingCheckIn : Bool
  attendanceRecords : List AttendanceRecordDisplay
  usersMap : List (String × String)
  loadingLogs : Bool
  errorLogs : Option String
deriving Repr, DecidableEq

/-- Initial state of AttendancePage. -/
def initAttendanceState : AttendanceState :=
  { userIdInput := "", checkInMessage := none, checkInError := none,
    loadingCheckIn := false, attendanceRecords := [], usersMap := [],
    loadingLogs := true, errorLogs := none }

/-- JS Map.get on an insertion list: the most recent set of the key wins. -/
def jsMapGet (m : List (String × String)) (k : String) : Option String :=
  (m.reverse.find? (fun p => p.1 = k)).map Prod.snd

/-- Build the usersMap from the fetched member list, as the forEach of
fetchUsersMap does with Map.set. -/
def buildUsersMap (us : List User) : List (String × String) :=
  us.map (fun u => (u.userId, u.name))

/-- One remote HTTP call issued by AttendancePage. -/
inductive AttCall where
  | getUsers : AttCall
  | getAttendanceAll : AttCall
  | postCheckin (userId : String) : AttCall
deriving Repr, DecidableEq

/-- Responses of the remote API as seen by AttendancePage; formatHMS models
the date-fns call format(new Date(t), 'HH:mm:ss') (an external collaborator,
out of scope of the spec). -/
structure AttendanceApi where
  getUsers : Except AxiosError (List User)
  getAttendanceAll : Except AxiosError (List AttendanceRecordDisplay)
  postCheckin : String → Except AxiosError CheckinResponse
  formatHMS : String → String

/-- fetchUsersMap: GET /users; on success rebuild the id-to-name map and
clear errorLogs; on failure set the fixed error string. -/
def fetchUsersMap (api : AttendanceApi) (s : AttendanceState) :
    AttendanceState × List AttCall :=
  match api.getUsers with
  | .ok us =>
      ({ s with usersMap := buildUsersMap us, errorLogs := none }, [AttCall.getUsers])
  | .error _ =>
      ({ s with errorLogs := some "Failed to load user names for attendance records." },
        [AttCall.getUsers])

/-- Error string shown by fetchAttendanceLogs: the status line when the
error has a response, the fixed network message otherwise. -/
def logsErrorMessage (e : AxiosError) : String :=
  match e.response with
  | some r => "Failed to load attendance logs: " ++ toString r.status ++ " - " ++ r.statusText
  | none => "Failed to load attendance logs. Network error or backend down."

/-- fetchAttendanceLogs: set loadingLogs; GET /attendance/all; on success
replace the records and clear errorLogs, on failure set the error string;
finally clear loadingLogs. -/
def fetchAttendanceLogs (api : AttendanceApi) (s : AttendanceState) :
    AttendanceState × List AttCall :=
  match api.getAttendanceAll with
  | .ok recs =>
      ({ s with attendanceRecords := recs, errorLogs := none, loadingLogs := false },
        [AttCall.getAttendanceAll])
  | .error e =>
      ({ s with errorLogs := some (logsErrorMessage e), loadingLogs := false },
        [AttCall.getAttendanceAll])

/-- loadInitialData: await fetchUsersMap, then await fetchAttendanceLogs. -/
def loadInitialData (api : AttendanceApi) (s : AttendanceState) :
    AttendanceState × List AttCall :=
  let r1 := fetchUsersMap api s
  let r2 := fetchAttendanceLogs api r1.1
  (r2.1, r1.2 ++ r2.2)

/-- Display name used in the check-in success message:
usersMap.get(checkedInUserId) || checkedInUserId.substring(0, 8) + '...'
(an entry with an empty name is falsy in JS and also falls back). -/
def displayNameFor (m : List (String × String)) (uid : String) : String :=
  match jsMapGet m uid with
  | some n => if n = "" then uid.take 8 ++ "..." else n
  | none => uid.take 8 ++ "..."

/-- Error string shown by handleCheckIn on failure:
err.response.data.message when that chain is present and truthy (the empty
string is falsy), else the fixed fallback. -/
def checkInErrorMessage (e : AxiosError) : String :=
  match e.response with
  | some r =>
    match r.data with
    | some d =>
      match d.message with
      | some m =>
          if m = "" then "Failed to check in. Please ensure User ID is valid." else m
      | none => "Failed to check in. Please ensure User ID is valid."
    | none => "Failed to check in. Please ensure User ID is valid."
  | none => "Failed to check in. Please ensure User ID is valid."

/-- The message field of an axios error payload, when every link of the
chain err.response.data.message is present. -/
def errMessageOf (e : AxiosError) : Option String :=
  (e.response.bind (fun r => r.data)).bind (fun d => d.message)

/-- handleCheckIn: clear both messages, set loadingCheckIn; POST
/attendance/checkin; on success build the success message from the
response's userId resolved through usersMap, clear the input and refresh
the logs; on failure set the error string; finally clear loadingCheckIn. -/
def handleCheckIn (api : AttendanceApi) (uid : String) (s : AttendanceState) :
    AttendanceState × List AttCall :=
  let s0 := { s with checkInMessage := none, checkInError := none,
                     loadingCheckIn := true }
  match api.postCheckin uid with
  | .ok resp =>
      let userName := displayNameFor s0.usersMap resp.userId
      let s1 := { s0 with
        checkInMessage := some ("User " ++ userName ++ " checked in successfully at "
          ++ api.formatHMS resp.checkInTime ++ "!"),
        userIdInput := "" }
      let r2 := fetchAttendanceLogs api s1
      ({ r2.1 with loadingCheckIn := false }, AttCall.postCheckin uid :: r2.2)
  | .error e =>
      ({ s0 with checkInError := some (checkInErrorMessage e),
                 loadingCheckIn := false }, [AttCall.postCheckin uid])

/-- JS String.prototype.trim: strip leading and trailing whitespace. -/
def jsTrim (s : String) : String :=
  String.mk (((s.toList.dropWhile Char.isWhitespace).reverse.dropWhile
    Char.isWhitespace).reverse)

/-- handleManualCheckInSubmit: only a non-empty trimmed input triggers a
check-in, with the trimmed string. -/
def handleManualCheckInSubmit (api : AttendanceApi) (s : AttendanceState) :
    AttendanceState × List AttCall :=
  if jsTrim s.userIdInput = "" then (s, [])
  else handleCheckIn api (jsTrim s.userIdInput) s

/-- Member-name cell of a rendered attendance row:
record.userName || 'Unknown User'. -/
def renderRecordName (r : AttendanceRecordDisplay) : String :=
  if r.userName = "" then "Unknown User" else r.userName

/-- Refinement of AttendancePage into start/end events of its async
operations, exposing the dedicated loadingCheckIn flag (which drives the
disabled attribute of the check-in button); checkInInFlight is the ghost
variable recording that a check-in is between its start and its end. -/
structure AttLoad where
  loadingCheckIn : Bool
  checkInInFlight : Bool
  loadingLogs : Bool
  fetchLogsInFlight : Bool
deriving Repr, DecidableEq

/-- Initial loading machine state of AttendancePage. -/
def initAttLoad : AttLoad :=
  { loadingCheckIn := false, checkInInFlight := false,
    loadingLogs := true, fetchLogsInFlight := false }

/-- Start/end events of the async operations of AttendancePage. -/
inductive AttLoadEvent where
  | checkInStart | checkInEndSuccess | checkInEndFailure
  | fetchLogsStart | fetchLogsEnd
  | fetchUsersMapStart | fetchUsersMapEnd
deriving Repr, DecidableEq

/-- Step of the AttendancePage loading machine.  A check-in can only start
while its button is enabled (loadingCheckIn = false); its finally block
clears the flag on both the success and the failure path; fetchUsersMap
touches neither flag. -/
def attLoadStep (s : AttLoad) : AttLoadEvent → AttLoad
  | .checkInStart =>
      if s.loadingCheckIn then s
      else { s with loadingCheckIn := true, checkInInFlight := true }
  | .checkInEndSuccess =>
      if s.checkInInFlight then
        { s with loadingCheckIn := false, checkInInFlight := false } else s
  | .checkInEndFailure =>
      if s.checkInInFlight then
        { s with loadingCheckIn := false, checkInInFlight := false } else s
  | .fetchLogsStart => { s with loadingLogs := true, fetchLogsInFlight := true }
  | .fetchLogsEnd =>
      if s.fetchLogsInFlight then
        { s with loadingLogs := false, fetchLogsInFlight := false } else s
  | .fetchUsersMapStart => s
  | .fetchUsersMapEnd => s

/-- Run the AttendancePage loading machine from the initial state. -/
def runAttLoad (evs : List AttLoadEvent) : AttLoad :=
  evs.foldl attLoadStep initAttLoad

end Attendance

namespace Fix

/-- A network/transport failure (no response object). -/
def netErr : AxiosError := { response := none }

/-- Member m1 of the fan-out example. -/
def m1 : Plans.User := { userId := "m1", name := "Alice" }

/-- Member m2 of the fan-out example. -/
def m2 : Plans.User := { userId := "m2", name := "Bob" }

/-- Member m3 of the fan-out example. -/
def m3 : Plans.User := { userId := "m3", name := "Cara" }

/-- Assignment a of the fan-out example. -/
def asgA : Plans.PlanAssignmentDisplay :=
  { assignmentId := 1, userName := "Alice", planName := "Basic",
    startDate := "2026-01-01", endDate := "2026-02-01", userId := none, planId := none }

/-- Assignment b of the fan-out example. -/
def asgB : Plans.PlanAssignmentDisplay :=
  { assignmentId := 2, userName := "Bob", planName := "Basic",
    startDate := "2026-01-01", endDate := "2026-02-01", userId := none, planId := none }

/-- Assignment c of the fan-out example. -/
def asgC : Plans.PlanAssignmentDisplay :=
  { assignmentId := 3, userName := "Bob", planName := "Gold",
    startDate := "2026-01-01", endDate := "2026-02-01", userId := none, planId := none }

/-- A stale assignment displayed before a refresh. -/
def asgOld : Plans.PlanAssignmentDisplay :=
  { assignmentId := 99, userName := "Old", planName := "Old",
    startDate := "2025-01-01", endDate := "2025-02-01", userId := none, planId := none }

/-- Per-member assignment results of the fan-out example: [a], [b, c], []. -/
def rs1 (uid : String) : List Plans.PlanAssignmentDisplay :=
  if uid = "m1" then [asgA] else if uid = "m2" then [asgB, asgC] else []

/-- Plans api where every call succeeds and the fan-out example holds. -/
def plansApi1 : Plans.PlansApi :=
  { getUsers := .ok [m1, m2, m3],
    getAssignments := fun uid => .ok (rs1 uid),
    getPlans := .ok [], deletePlan := fun _ => .ok (),
    putPlan := fun _ _ => .ok (), postPlan := fun _ => .ok (),
    postAssign := fun _ => .ok (), today := "2026-01-01" }

/-- Plans api where m2's per-member assignment fetch rejects. -/
def plansApi2 : Plans.PlansApi :=
  { plansApi1 with
    getAssignments := fun uid => if uid = "m2" then .error netErr else .ok (rs1 uid) }

/-- A plans state already displaying one (stale) assignment. -/
def sPlansOld : Plans.PlansState :=
  { Plans.initPlansState "2026-01-01" with planAssignments := [asgOld] }

/-- A concrete plan used for edit-click events. -/
def planB : Plans.MembershipPlan :=
  { planId := 1, planName := "Basic", price := 10, durationMonths := 1, featuresList := "" }

/-- A member record as returned by a full refetch. -/
def uNew : Users.User :=
  { userId := "e0a0ca55-986e", name := "Dana", age := 30, gender := "Female",
    contactNumber := "123", membershipStatus := "Active", joiningDate := "2026-01-02" }

/-- Users api where every call succeeds and GET /users returns [uNew]. -/
def usersApi1 : Users.UsersApi :=
  { getUsers := .ok [uNew], postUser := fun _ => .ok (),
    putUser := fun _ _ => .ok (), deleteUser := fun _ => .ok (),
    today := "2026-01-01" }

/-- Users api where the submit call fails. -/
def usersApi2 : Users.UsersApi :=
  { usersApi1 with postUser := fun _ => .error netErr }

/-- A users state with the form open and fields entered. -/
def sUsersForm : Users.UsersState :=
  { Users.initUsersState "2026-01-01" with
    showForm := true,
    formData := { name := "Bob", age := "30", gender := "Male",
                  contactNumber := "555", membershipStatus := "Active",
                  joiningDate := "2026-01-02" } }

/-- An attendance record whose userName is empty (renders as Unknown User). -/
def recX : Attendance.AttendanceRecordDisplay :=
  { attendanceId := 1, userId := "u1", userName := "", checkInTime := "2026-01-01T10:00:00" }

/-- Attendance api where the member-name fetch fails but the attendance
fetch succeeds. -/
def attApiNamesFail : Attendance.AttendanceApi :=
  { getUsers := .error netErr, getAttendanceAll := .ok [recX],
    postCheckin := fun _ => .error netErr, formatHMS := fun t => t }

/-- Attendance api where check-in succeeds for user u1 at time t. -/
def attApiCk : Attendance.AttendanceApi :=
  { getUsers := .ok [], getAttendanceAll := .ok [],
    postCheckin := fun _ => .ok { userId := "u1", checkInTime := "t" },
    formatHMS := fun t => t }

/-- An error payload whose message field is present but empty. -/
def errEmptyMsg : AxiosError :=
  { response := some { status := 400, statusText := "Bad Request",
                       data := some { message := some "" } } }

/-- Attendance api where check-in fails with an empty message field. -/
def attApiCkErr : Attendance.AttendanceApi :=
  { attApiCk with postCheckin := fun _ => .error errEmptyMsg }

/-- An error payload with a non-empty message field. -/
def errNotFound : AxiosError :=
  { response := some { status := 404, statusText := "Not Found",
                       data := some { message := some "User not found!" } } }

/-- Attendance api where check-in fails with the non-empty message payload. -/
def attApiCkErrMsg : Attendance.AttendanceApi :=
  { attApiCk with postCheckin := fun _ => .error errNotFound }

/-- Attendance api where check-in fails with a bare network error. -/
def attApiCkErrNet : Attendance.AttendanceApi :=
  { attApiCk with postCheckin := fun _ => .error netErr }

/-- An attendance state whose usersMap maps u1 to the empty name. -/
def sCk : Attendance.AttendanceState :=
  { Attendance.initAttendanceState with usersMap := [("u1", "")] }

/-- An attendance state whose input is whitespace only. -/
def sBlankInput : Attendance.AttendanceState :=
  { Attendance.initAttendanceState with userIdInput := "   " }

/-- An attendance state whose input has surrounding whitespace. -/
def sPaddedInput : Attendance.AttendanceState :=
  { Attendance.initAttendanceState with userIdInput := "  u1  " }

end Fix

/-- When every per-member call succeeds, the assignment loop returns the
accumulator followed by the per-member results concatenated in member
order, and issues exactly one call per member in that order. -/
theorem collect_ok_of_all_ok (api : Plans.PlansApi)
    (rs : String → List Plans.PlanAssignmentDisplay) :
    ∀ (us : List Plans.User) (acc : List Plans.PlanAssignmentDisplay),
      (∀ u ∈ us, api.getAssignments u.userId = Except.ok (rs u.userId)) →
      Plans.collectAssignments api us acc =
        (Except.ok (acc ++ (us.map (fun u => rs u.userId)).flatten),
          us.map (fun u => Plans.ApiCall.getAssignments u.userId)) := by
  intro us
  induction us with
  | nil => intro acc _; simp [Plans.collectAssignments]
  | cons u rest ih =>
    intro acc h
    have hu : api.getAssignments u.userId = Except.ok (rs u.userId) :=
      h u (List.mem_cons_self u rest)
    have hr := ih (acc ++ rs u.userId) (fun v hv => h v (List.mem_cons_of_mem u hv))
    simp [Plans.collectAssignments, hu, hr, List.append_assoc]

/-- C1: fetchAllPlanAssignments first fetches the full member list, then
for each member in that list fetches that member's assignments, and
returns the concatenation of the per-member results in member-list order,
preserving within each member the order returned by the remote call. -/
theorem c1_listAllAssignments_concatenation
    (api : Plans.PlansApi) (s : Plans.PlansState)
    (ms : List Plans.User) (rs : String → List Plans.PlanAssignmentDisplay)
    (h1 : api.getUsers = Except.ok ms)
    (h2 : ∀ u ∈ ms, api.getAssignments u.userId = Except.ok (rs u.userId)) :
    (Plans.fetchAllPlanAssignments api s).1.planAssignments =
      (ms.map (fun u => rs u.userId)).flatten ∧
    (Plans.fetchAllPlanAssignments api s).2 =
      Plans.ApiCall.getUsers :: ms.map (fun u => Plans.ApiCall.getAssignments u.userId) := by
  have hc := collect_ok_of_all_ok api rs ms [] h2
  constructor <;> simp [Plans.fetchAllPlanAssignments, h1, hc]

/-- Witness for C1: three members returning [a], [b, c], [] yield the
concatenation [a, b, c], after one member-list call and one call per member. -/
theorem c1_witness :
    (Plans.fetchAllPlanAssignments Fix.plansApi1 (Plans.initPlansState "2026-01-01")).1.planAssignments
        = [Fix.asgA, Fix.asgB, Fix.asgC] ∧
    (Plans.fetchAllPlanAssignments Fix.plansApi1 (Plans.initPlansState "2026-01-01")).2
        = [Plans.ApiCall.getUsers, Plans.ApiCall.getAssignments "m1",
           Plans.ApiCall.getAssignments "m2", Plans.ApiCall.getAssignments "m3"] := by
  have h := c1_listAllAssignments_concatenation Fix.plansApi1
    (Plans.initPlansState "2026-01-01") [Fix.m1, Fix.m2, Fix.m3] Fix.rs1
    rfl (fun u _ => rfl)
  exact ⟨h.1.trans (by rfl), h.2.trans (by rfl)⟩

/-- C2: when the member-list fetch or any single per-member assignment
fetch fails, fetchAllPlanAssignments sets the error message and leaves the
previously displayed assignment list unchanged. -/
theorem c2_failure_leaves_assignments_stale
    (api : Plans.PlansApi) (s : Plans.PlansState)
    (h : (∃ e, api.getUsers = Except.error e) ∨
         ∃ ms, api.getUsers = Except.ok ms ∧
           ∃ e, (Plans.collectAssignments api ms []).1 = Except.error e) :
    (Plans.fetchAllPlanAssignments api s).1.planAssignments = s.planAssignments ∧
    (Plans.fetchAllPlanAssignments api s).1.error = some "Failed to load plan assignments." := by
  rcases h with ⟨e, he⟩ | ⟨ms, hms, e, hc⟩
  · constructor <;> simp [Plans.fetchAllPlanAssignments, he]
  · rcases hp : Plans.collectAssignments api ms [] with ⟨res, tr⟩
    rw [hp] at hc
    simp only at hc
    subst hc
    constructor <;> simp [Plans.fetchAllPlanAssignments, hms, hp]

/-- Witness for C2: with m2's per-member fetch rejecting, the stale
assignment list is kept and the error message is set. -/
theorem c2_witness :
    (Plans.fetchAllPlanAssignments Fix.plansApi2 Fix.sPlansOld).1.planAssignments
        = [Fix.asgOld] ∧
    (Plans.fetchAllPlanAssignments Fix.plansApi2 Fix.sPlansOld).1.error
        = some "Failed to load plan assignments." := by
  have h := c2_failure_leaves_assignments_stale Fix.plansApi2 Fix.sPlansOld
    (Or.inr ⟨[Fix.m1, Fix.m2, Fix.m3], rfl, Fix.netErr, by rfl⟩)
  exact ⟨h.1.trans (by rfl), h.2⟩

/-- fetchPlans always issues exactly the GET /plans call. -/
theorem fetchPlans_snd (api : Plans.PlansApi) (s : Plans.PlansState) :
    (Plans.fetchPlans api s).2 = [Plans.ApiCall.getPlans] := by
  rcases h : api.getPlans with _ | _ <;> simp [Plans.fetchPlans, h]

/-- fetchAllPlanAssignments always issues GET /users first. -/
theorem fetchAllPlanAssignments_snd_cons (api : Plans.PlansApi) (s : Plans.PlansState) :
    ∃ t, (Plans.fetchAllPlanAssignments api s).2 = Plans.ApiCall.getUsers :: t := by
  rcases h : api.getUsers with _ | us
  · exact ⟨[], by simp [Plans.fetchAllPlanAssignments, h]⟩
  · rcases hp : Plans.collectAssignments api us [] with ⟨res, tr⟩
    rcases res with _ | asg <;>
      exact ⟨tr, by simp [Plans.fetchAllPlanAssignments, h, hp]⟩

/-- C8: deletePlan is only issued after interactive confirmation, and every
successful delete is followed by both a plan-list refresh (GET /plans) and
a re-run of the full assignment aggregation (starting with GET /users). -/
theorem c8_deletePlan_two_refreshes
    (api : Plans.PlansApi) (planId : Nat) (s : Plans.PlansState) :
    Plans.handleDeletePlanClick api false planId s = (s, []) ∧
    (api.deletePlan planId = Except.ok () →
      ∃ t, (Plans.handleDeletePlanClick api true planId s).2 =
        Plans.ApiCall.deletePlan planId :: Plans.ApiCall.getPlans ::
          Plans.ApiCall.getUsers :: t) := by
  constructor
  · simp [Plans.handleDeletePlanClick]
  · intro h
    obtain ⟨t, ht⟩ := fetchAllPlanAssignments_snd_cons api
      (Plans.fetchPlans api { s with loading := true }).1
    refine ⟨t, ?_⟩
    simp [Plans.handleDeletePlanClick, h, fetchPlans_snd, ht]

/-- Witness for C8: a confirmed delete that succeeds issues the delete call
followed by the two refreshes; an unconfirmed click does nothing. -/
theorem c8_witness :
    Plans.handleDeletePlanClick Fix.plansApi1 false 1 Fix.sPlansOld = (Fix.sPlansOld, []) ∧
    ∃ t, (Plans.handleDeletePlanClick Fix.plansApi1 true 1 Fix.sPlansOld).2 =
      Plans.ApiCall.deletePlan 1 :: Plans.ApiCall.getPlans :: Plans.ApiCall.getUsers :: t := by
  have h := c8_deletePlan_two_refreshes Fix.plansApi1 1 Fix.sPlansOld
  exact ⟨h.1, h.2 rfl⟩

/-- fetchUsers keeps the form state, its visibility and the editing state
untouched; it only replaces the list, the error and the loading flag. -/
theorem fetchUsers_preserves_form (api : Users.UsersApi) (s : Users.UsersState) :
    (Users.fetchUsers api s).1.showForm = s.showForm ∧
    (Users.fetchUsers api s).1.editingUser = s.editingUser ∧
    (Users.fetchUsers api s).1.formData = s.formData := by
  rcases h : api.getUsers with _ | us <;> simp [Users.fetchUsers, h]

/-- When GET /users succeeds, fetchUsers displays exactly the fetched list. -/
theorem fetchUsers_ok_users (api : Users.UsersApi) (s : Users.UsersState)
    (us : List Users.User) (h : api.getUsers = Except.ok us) :
    (Users.fetchUsers api s).1.users = us := by
  simp [Users.fetchUsers, h]

/-- On a successful submit, handleFormSubmit is the refetch applied to the
closed-and-reset form state, and the refetch is its only further call. -/
theorem handleFormSubmit_ok_eq (api : Users.UsersApi) (s : Users.UsersState)
    (h : (match s.editingUser with
      | some u => api.putUser u.userId (Users.mkUserPayload s.formData)
      | none => api.postUser (Users.mkUserPayload s.formData)) = Except.ok ()) :
    (Users.handleFormSubmit api s).1 =
      { (Users.fetchUsers api
          { s with
            error := none, loading := true, showForm := false, editingUser := none,
            formData := Users.defaultUserForm api.today }).1 with
        loading := false } ∧
    (Users.handleFormSubmit api s).2.tail = [Users.UCall.getUsers] := by
  have hsnd : ∀ t : Users.UsersState, (Users.fetchUsers api t).2 = [Users.UCall.getUsers] := by
    intro t; rcases hg : api.getUsers with _ | us <;> simp [Users.fetchUsers, hg]
  rcases heu : s.editingUser with _ | u <;> rw [heu] at h <;>
    simp only [] at h <;>
    constructor <;> simp [Users.handleFormSubmit, heu, h, hsnd]

/-- C9: on a successful member create/update the form is closed, its fields
are reset to defaults (status Inactive, joining date today) and the
displayed list is the full refetch; on failure the form stays open with an
error shown and the entered values preserved. -/
theorem c9_member_submit_contract (api : Users.UsersApi) (s : Users.UsersState) :
    ((match s.editingUser with
      | some u => api.putUser u.userId (Users.mkUserPayload s.formData)
      | none => api.postUser (Users.mkUserPayload s.formData)) = Except.ok () →
      (Users.handleFormSubmit api s).1.showForm = false ∧
      (Users.handleFormSubmit api s).1.editingUser = none ∧
      (Users.handleFormSubmit api s).1.formData = Users.defaultUserForm api.today ∧
      (Users.handleFormSubmit api s).1.formData.membershipStatus = "Inactive" ∧
      (Users.handleFormSubmit api s).1.formData.joiningDate = api.today ∧
      (∀ us, api.getUsers = Except.ok us → (Users.handleFormSubmit api s).1.users = us) ∧
      (Users.handleFormSubmit api s).2.tail = [Users.UCall.getUsers]) ∧
    (∀ e, (match s.editingUser with
      | some u => api.putUser u.userId (Users.mkUserPayload s.formData)
      | none => api.postUser (Users.mkUserPayload s.formData)) = Except.error e →
      (Users.handleFormSubmit api s).1.showForm = s.showForm ∧
      (Users.handleFormSubmit api s).1.formData = s.formData ∧
      (Users.handleFormSubmit api s).1.users = s.users ∧
      (Users.handleFormSubmit api s).1.error =
        some "Failed to save user. Please check your input.") := by
  constructor
  · intro h
    obtain ⟨hst, htl⟩ := handleFormSubmit_ok_eq api s h
    rw [hst]
    have hpres := fetchUsers_preserves_form api
      { s with
        error := none, loading := true, showForm := false, editingUser := none,
        formData := Users.defaultUserForm api.today }
    refine ⟨hpres.1, hpres.2.1, hpres.2.2, ?_, ?_, ?_, htl⟩
    · rw [hpres.2.2]; rfl
    · rw [hpres.2.2]; rfl
    · intro us hus
      exact fetchUsers_ok_users api _ us hus
  · intro e h
    rcases heu : s.editingUser with _ | u <;> rw [heu] at h <;>
      simp only [] at h <;>
      simp [Users.handleFormSubmit, heu, h]

/-- Witness for C9: a successful create shows the refetched list and resets
the form; a failed create preserves the entered values with an error. -/
theorem c9_witness :
    (Users.handleFormSubmit Fix.usersApi1 Fix.sUsersForm).1.showForm = false ∧
    (Users.handleFormSubmit Fix.usersApi1 Fix.sUsersForm).1.formData
      = Users.defaultUserForm "2026-01-01" ∧
    (Users.handleFormSubmit Fix.usersApi1 Fix.sUsersForm).1.users = [Fix.uNew] ∧
    (Users.handleFormSubmit Fix.usersApi2 Fix.sUsersForm).1.showForm = true ∧
    (Users.handleFormSubmit Fix.usersApi2 Fix.sUsersForm).1.formData
      = Fix.sUsersForm.formData ∧
    (Users.handleFormSubmit Fix.usersApi2 Fix.sUsersForm).1.error
      = some "Failed to save user. Please check your input." := by
  have h1 := (c9_member_submit_contract Fix.usersApi1 Fix.sUsersForm).1 rfl
  have h2 := (c9_member_submit_contract Fix.usersApi2 Fix.sUsersForm).2 Fix.netErr rfl
  refine ⟨h1.1, h1.2.2.1, h1.2.2.2.2.2.1 [Fix.uNew] rfl, ?_, h2.2.1, h2.2.2.2⟩
  exact h2.1.trans (by rfl)

/-- handleCheckIn always issues the POST /attendance/checkin call first. -/
theorem handleCheckIn_snd_cons (api : Attendance.AttendanceApi) (uid : String)
    (s : Attendance.AttendanceState) :
    ∃ t, (Attendance.handleCheckIn api uid s).2 = Attendance.AttCall.postCheckin uid :: t := by
  rcases h : api.postCheckin uid with e | resp
  · exact ⟨[], by simp [Attendance.handleCheckIn, h]⟩
  · rcases hl : api.getAttendanceAll with e2 | recs <;>
      exact ⟨[Attendance.AttCall.getAttendanceAll],
        by simp [Attendance.handleCheckIn, h, Attendance.fetchAttendanceLogs, hl]⟩

/-- C10: submitting the manual check-in form with a whitespace-only input
performs no remote call and leaves the state unchanged; with a non-empty
trimmed value, checkIn is invoked with exactly the trimmed string. -/
theorem c10_manual_checkin_trims
    (api : Attendance.AttendanceApi) (s : Attendance.AttendanceState) :
    (Attendance.jsTrim s.userIdInput = "" →
      Attendance.handleManualCheckInSubmit api s = (s, [])) ∧
    (Attendance.jsTrim s.userIdInput ≠ "" →
      ∃ t, (Attendance.handleManualCheckInSubmit api s).2 =
        Attendance.AttCall.postCheckin (Attendance.jsTrim s.userIdInput) :: t) := by
  constructor
  · intro h; simp [Attendance.handleManualCheckInSubmit, h]
  · intro h
    simpa [Attendance.handleManualCheckInSubmit, h] using
      handleCheckIn_snd_cons api (Attendance.jsTrim s.userIdInput) s

/-- Witness for C10: the input of blanks makes no call and changes nothing;
the padded input checks in with its trimmed form. -/
theorem c10_witness :
    Attendance.handleManualCheckInSubmit Fix.attApiCk Fix.sBlankInput = (Fix.sBlankInput, []) ∧
    ∃ t, (Attendance.handleManualCheckInSubmit Fix.attApiCk Fix.sPaddedInput).2 =
      Attendance.AttCall.postCheckin "u1" :: t := by
  have htrim : Attendance.jsTrim Fix.sPaddedInput.userIdInput = "u1" := by decide
  constructor
  · exact (c10_manual_checkin_trims Fix.attApiCk Fix.sBlankInput).1 (by decide)
  · have h := (c10_manual_checkin_trims Fix.attApiCk Fix.sPaddedInput).2
      (by rw [htrim]; decide)
    rwa [htrim] at h

/-- Counterexample to C3 as stated: with the member-name fetch failing and
the attendance fetch succeeding, the attendance rows do render, but no
load-error banner remains shown — the successful attendance fetch resets
errorLogs to null. -/
theorem c3_counterexample :
    (Attendance.loadInitialData Fix.attApiNamesFail Attendance.initAttendanceState).1.attendanceRecords
        = [Fix.recX] ∧
    (Attendance.loadInitialData Fix.attApiNamesFail Attendance.initAttendanceState).1.errorLogs
        = none := by
  exact ⟨rfl, rfl⟩

/-- C3 (amended): on Attendance startup the id-to-name table fetch runs
(and completes) before the attendance fetch; when the member-name fetch
fails and the attendance fetch succeeds, the name failure first raises the
load-error banner, the attendance rows still render (empty names falling
back to "Unknown User"), but the banner is then cleared by the successful
attendance fetch. -/
theorem c3_amended_names_failure_rows_render
    (api : Attendance.AttendanceApi) (s : Attendance.AttendanceState)
    (e : AxiosError) (recs : List Attendance.AttendanceRecordDisplay)
    (h1 : api.getUsers = Except.error e)
    (h2 : api.getAttendanceAll = Except.ok recs) :
    (Attendance.fetchUsersMap api s).1.errorLogs
        = some "Failed to load user names for attendance records." ∧
    (Attendance.loadInitialData api s).1.attendanceRecords = recs ∧
    (Attendance.loadInitialData api s).1.errorLogs = none ∧
    (Attendance.loadInitialData api s).2
        = [Attendance.AttCall.getUsers, Attendance.AttCall.getAttendanceAll] ∧
    (∀ r ∈ recs, r.userName = "" → Attendance.renderRecordName r = "Unknown User") := by
  refine ⟨?_, ?_, ?_, ?_, ?_⟩
  · simp [Attendance.fetchUsersMap, h1]
  · simp [Attendance.loadInitialData, Attendance.fetchUsersMap,
      Attendance.fetchAttendanceLogs, h1, h2]
  · simp [Attendance.loadInitialData, Attendance.fetchUsersMap,
      Attendance.fetchAttendanceLogs, h1, h2]
  · simp [Attendance.loadInitialData, Attendance.fetchUsersMap,
      Attendance.fetchAttendanceLogs, h1, h2]
  · intro r _ hr
    simp [Attendance.renderRecordName, hr]

/-- Witness for the amended C3 at the concrete failing-names api. -/
theorem c3_amended_witness :
    (Attendance.fetchUsersMap Fix.attApiNamesFail Attendance.initAttendanceState).1.errorLogs
        = some "Failed to load user names for attendance records." ∧
    (Attendance.loadInitialData Fix.attApiNamesFail Attendance.initAttendanceState).1.attendanceRecords
        = [Fix.recX] ∧
    Attendance.renderRecordName Fix.recX = "Unknown User" := by
  have h := c3_amended_names_failure_rows_render Fix.attApiNamesFail
    Attendance.initAttendanceState Fix.netErr [Fix.recX] rfl rfl
  exact ⟨h.1, h.2.1, h.2.2.2.2 Fix.recX (by simp) rfl⟩

/-- fetchAttendanceLogs leaves the check-in message and error untouched. -/
theorem fetchAttendanceLogs_preserves_checkin
    (api : Attendance.AttendanceApi) (s : Attendance.AttendanceState) :
    (Attendance.fetchAttendanceLogs api s).1.checkInMessage = s.checkInMessage ∧
    (Attendance.fetchAttendanceLogs api s).1.checkInError = s.checkInError := by
  rcases h : api.getAttendanceAll with _ | recs <;>
    simp [Attendance.fetchAttendanceLogs, h]

/-- Counterexample to C6 as stated: the response userId u1 is present in
the cached table (mapped to the empty name), yet the success message shows
the truncated-id fallback, not the mapped name. -/
theorem c6_counterexample :
    Attendance.jsMapGet Fix.sCk.usersMap "u1" = some "" ∧
    (Attendance.handleCheckIn Fix.attApiCk "u1" Fix.sCk).1.checkInMessage
        = some "User u1... checked in successfully at t!" ∧
    (Attendance.handleCheckIn Fix.attApiCk "u1" Fix.sCk).1.checkInMessage
        ≠ some ("User " ++ "" ++ " checked in successfully at t!") := by
  refine ⟨by decide, by rfl, by decide⟩

/-- C6 (amended): on a successful checkIn, when the response userId is
absent from the cached table, or mapped to an empty name, the success
message shows the first 8 characters of the userId followed by "..."; when
it maps to a non-empty name, that name is shown. -/
theorem c6_amended_checkin_display_name
    (api : Attendance.AttendanceApi) (uid : String) (s : Attendance.AttendanceState)
    (resp : Attendance.CheckinResponse)
    (hok : api.postCheckin uid = Except.ok resp) :
    (Attendance.jsMapGet s.usersMap resp.userId = none →
      (Attendance.handleCheckIn api uid s).1.checkInMessage =
        some ("User " ++ (resp.userId.take 8 ++ "...") ++ " checked in successfully at "
          ++ api.formatHMS resp.checkInTime ++ "!")) ∧
    (Attendance.jsMapGet s.usersMap resp.userId = some "" →
      (Attendance.handleCheckIn api uid s).1.checkInMessage =
        some ("User " ++ (resp.userId.take 8 ++ "...") ++ " checked in successfully at "
          ++ api.formatHMS resp.checkInTime ++ "!")) ∧
    (∀ n, Attendance.jsMapGet s.usersMap resp.userId = some n → n ≠ "" →
      (Attendance.handleCheckIn api uid s).1.checkInMessage =
        some ("User " ++ n ++ " checked in successfully at "
          ++ api.formatHMS resp.checkInTime ++ "!")) := by
  have hpres := fetchAttendanceLogs_preserves_checkin api
  refine ⟨?_, ?_, ?_⟩
  · intro hmap
    simp [Attendance.handleCheckIn, hok, hpres, Attendance.displayNameFor, hmap]
  · intro hmap
    simp [Attendance.handleCheckIn, hok, hpres, Attendance.displayNameFor, hmap]
  · intro n hmap hn
    simp [Attendance.handleCheckIn, hok, hpres, Attendance.displayNameFor, hmap, hn]

/-- Witness for the amended C6: absent id shows the truncated fallback;
a non-empty mapped name is shown as is. -/
theorem c6_amended_witness :
    (Attendance.handleCheckIn Fix.attApiCk "u1" Attendance.initAttendanceState).1.checkInMessage
        = some "User u1... checked in successfully at t!" ∧
    (Attendance.handleCheckIn Fix.attApiCk "u1"
        { Attendance.initAttendanceState with usersMap := [("u1", "Eva")] }).1.checkInMessage
        = some "User Eva checked in successfully at t!" := by
  constructor
  · have h := (c6_amended_checkin_display_name Fix.attApiCk "u1"
      Attendance.initAttendanceState { userId := "u1", checkInTime := "t" } rfl).1 (by decide)
    exact h.trans (by rfl)
  · have h := (c6_amended_checkin_display_name Fix.attApiCk "u1"
      { Attendance.initAttendanceState with usersMap := [("u1", "Eva")] }
      { userId := "u1", checkInTime := "t" } rfl).2.2 "Eva" (by decide) (by decide)
    exact h.trans (by rfl)

/-- checkInErrorMessage surfaces the message field of the error payload
when the whole chain is present and the message is non-empty, and the
fixed fallback otherwise. -/
theorem checkInErrorMessage_spec (e : AxiosError) :
    Attendance.checkInErrorMessage e =
      (match Attendance.errMessageOf e with
        | some m =>
            if m = "" then "Failed to check in. Please ensure User ID is valid." else m
        | none => "Failed to check in. Please ensure User ID is valid.") := by
  rcases e with ⟨_ | ⟨st, stx, _ | ⟨_ | m⟩⟩⟩ <;>
    rfl

/-- Counterexample to C7 as stated: the error payload contains a message
field (the empty string), yet the fixed fallback is shown instead of the
message verbatim. -/
theorem c7_counterexample :
    Attendance.errMessageOf Fix.errEmptyMsg = some "" ∧
    (Attendance.handleCheckIn Fix.attApiCkErr "u1" Attendance.initAttendanceState).1.checkInError
        = some "Failed to check in. Please ensure User ID is valid." ∧
    (Attendance.handleCheckIn Fix.attApiCkErr "u1" Attendance.initAttendanceState).1.checkInError
        ≠ some "" := by
  refine ⟨by rfl, by rfl, by decide⟩

/-- C7 (amended): on a failed checkIn, a present non-empty message field is
shown verbatim; an absent or empty message field yields the fixed fallback
message. -/
theorem c7_amended_checkin_error_message
    (api : Attendance.AttendanceApi) (uid : String) (s : Attendance.AttendanceState)
    (e : AxiosError) (herr : api.postCheckin uid = Except.error e) :
    (∀ m, Attendance.errMessageOf e = some m → m ≠ "" →
      (Attendance.handleCheckIn api uid s).1.checkInError = some m) ∧
    (Attendance.errMessageOf e = none ∨ Attendance.errMessageOf e = some "" →
      (Attendance.handleCheckIn api uid s).1.checkInError =
        some "Failed to check in. Please ensure User ID is valid.") := by
  have hmsg := checkInErrorMessage_spec e
  constructor
  · intro m hm hne
    rw [hm] at hmsg
    simp only [hne, if_neg] at hmsg
    simp [Attendance.handleCheckIn, herr, hmsg]
  · intro h
    rcases h with h | h <;> rw [h] at hmsg <;> simp at hmsg <;>
      simp [Attendance.handleCheckIn, herr, hmsg]

/-- Witness for the amended C7: a non-empty message is surfaced verbatim;
a missing response yields the fallback. -/
theorem c7_amended_witness :
    (Attendance.handleCheckIn Fix.attApiCkErrMsg "u1"
        Attendance.initAttendanceState).1.checkInError = some "User not found!" ∧
    (Attendance.handleCheckIn Fix.attApiCkErrNet "u1"
        Attendance.initAttendanceState).1.checkInError
        = some "Failed to check in. Please ensure User ID is valid." := by
  constructor
  · exact (c7_amended_checkin_error_message Fix.attApiCkErrMsg "u1"
      Attendance.initAttendanceState Fix.errNotFound rfl).1 "User not found!" rfl (by decide)
  · exact (c7_amended_checkin_error_message Fix.attApiCkErrNet "u1"
      Attendance.initAttendanceState Fix.netErr rfl).2 (Or.inl rfl)

/-- fetchPlans never changes the visibility of either form. -/
theorem fetchPlans_forms (api : Plans.PlansApi) (s : Plans.PlansState) :
    (Plans.fetchPlans api s).1.showPlanForm = s.showPlanForm ∧
    (Plans.fetchPlans api s).1.showAssignForm = s.showAssignForm := by
  rcases h : api.getPlans with _ | ps <;> simp [Plans.fetchPlans, h]

/-- fetchUsersForAssignment never changes the visibility of either form. -/
theorem fetchUsersForAssignment_forms (api : Plans.PlansApi) (s : Plans.PlansState) :
    (Plans.fetchUsersForAssignment api s).1.showPlanForm = s.showPlanForm ∧
    (Plans.fetchUsersForAssignment api s).1.showAssignForm = s.showAssignForm := by
  rcases h : api.getUsers with _ | us <;> simp [Plans.fetchUsersForAssignment, h]

/-- fetchAllPlanAssignments never changes the visibility of either form. -/
theorem fetchAllPlanAssignments_forms (api : Plans.PlansApi) (s : Plans.PlansState) :
    (Plans.fetchAllPlanAssignments api s).1.showPlanForm = s.showPlanForm ∧
    (Plans.fetchAllPlanAssignments api s).1.showAssignForm = s.showAssignForm := by
  rcases h : api.getUsers with _ | us
  · simp [Plans.fetchAllPlanAssignments, h]
  · rcases hp : Plans.collectAssignments api us [] with ⟨res, tr⟩
    rcases res with _ | asg <;> simp [Plans.fetchAllPlanAssignments, h, hp]

/-- Every MembershipPlansPage handler except handleEditPlanClick preserves
the invariant that the plan form and the assign form are not both visible. -/
theorem plansStep_not_both (api : Plans.PlansApi) (s : Plans.PlansState)
    (e : Plans.PlansEvent)
    (hinv : ¬(s.showPlanForm = true ∧ s.showAssignForm = true))
    (he : ∀ p, e ≠ Plans.PlansEvent.editPlanClick p) :
    ¬((Plans.plansStep api s e).showPlanForm = true ∧
      (Plans.plansStep api s e).showAssignForm = true) := by
  cases e with
  | togglePlanForm => simp [Plans.plansStep, Plans.handleTogglePlanFormClick]
  | toggleAssignForm => simp [Plans.plansStep, Plans.handleToggleAssignFormClick]
  | editPlanClick p => exact absurd rfl (he p)
  | cancelEdit => simp [Plans.plansStep, Plans.handleCancelEditClick]
  | planFormSubmit =>
    rcases heu : s.editingPlan with _ | p
    · rcases hres : api.postPlan (Plans.mkPlanPayload s.planFormData) with e2 | u2
      · simpa [Plans.plansStep, Plans.handlePlanFormSubmit, heu, hres] using hinv
      · simp [Plans.plansStep, Plans.handlePlanFormSubmit, heu, hres,
          (fetchPlans_forms api _).1, (fetchAllPlanAssignments_forms api _).1]
    · rcases hres : api.putPlan p.planId (Plans.mkPlanPayload s.planFormData) with e2 | u2
      · simpa [Plans.plansStep, Plans.handlePlanFormSubmit, heu, hres] using hinv
      · simp [Plans.plansStep, Plans.handlePlanFormSubmit, heu, hres,
          (fetchPlans_forms api _).1, (fetchAllPlanAssignments_forms api _).1]
  | assignFormSubmit =>
    rcases hres : api.postAssign ⟨s.assignFormData.userId,
        parseNumJs s.assignFormData.planId, s.assignFormData.startDate⟩ with e2 | u2
    · simpa [Plans.plansStep, Plans.handleAssignFormSubmit, hres] using hinv
    · simp [Plans.plansStep, Plans.handleAssignFormSubmit, hres,
        (fetchAllPlanAssignments_forms api _).2, (fetchUsersForAssignment_forms api _).2]
  | deletePlanClick c pid =>
    cases c with
    | false => simpa [Plans.plansStep, Plans.handleDeletePlanClick] using hinv
    | true =>
      rcases hres : api.deletePlan pid with e2 | u2
      · simpa [Plans.plansStep, Plans.handleDeletePlanClick, hres] using hinv
      · simpa [Plans.plansStep, Plans.handleDeletePlanClick, hres,
          (fetchPlans_forms api _).1, (fetchPlans_forms api _).2,
          (fetchAllPlanAssignments_forms api _).1,
          (fetchAllPlanAssignments_forms api _).2] using hinv

/-- Counterexample to C5 as stated: opening the assign form and then
clicking Edit on a plan row reaches a state where both forms are visible,
because handleEditPlanClick does not hide the assign form. -/
theorem c5_counterexample :
    (Plans.runPlans Fix.plansApi1 (Plans.initPlansState "2026-01-01")
        [Plans.PlansEvent.toggleAssignForm,
         Plans.PlansEvent.editPlanClick Fix.planB]).showPlanForm = true ∧
    (Plans.runPlans Fix.plansApi1 (Plans.initPlansState "2026-01-01")
        [Plans.PlansEvent.toggleAssignForm,
         Plans.PlansEvent.editPlanClick Fix.planB]).showAssignForm = true := by
  exact ⟨rfl, rfl⟩

/-- C5 (amended): along every event sequence that never clicks Edit on a
plan row, the plan-edit form and the assign-plan form are never both
visible; handleEditPlanClick breaks the invariant because it shows the
plan form without hiding the assign form. -/
theorem c5_amended_forms_exclusive
    (api : Plans.PlansApi) (today : String) (evs : List Plans.PlansEvent)
    (h : ∀ p, Plans.PlansEvent.editPlanClick p ∉ evs) :
    ¬((Plans.runPlans api (Plans.initPlansState today) evs).showPlanForm = true ∧
      (Plans.runPlans api (Plans.initPlansState today) evs).showAssignForm = true) := by
  have main : ∀ (l : List Plans.PlansEvent) (s : Plans.PlansState),
      (∀ p, Plans.PlansEvent.editPlanClick p ∉ l) →
      ¬(s.showPlanForm = true ∧ s.showAssignForm = true) →
      ¬((l.foldl (Plans.plansStep api) s).showPlanForm = true ∧
        (l.foldl (Plans.plansStep api) s).showAssignForm = true) := by
    intro l
    induction l with
    | nil => intro s _ hinv; simpa using hinv
    | cons e rest ih =>
      intro s hl hinv
      rw [List.foldl_cons]
      apply ih
      · intro p hp
        exact hl p (List.mem_cons_of_mem e hp)
      · apply plansStep_not_both api s e hinv
        intro p hpe
        exact hl p (by rw [← hpe]; exact List.mem_cons_self e rest)
  exact main evs (Plans.initPlansState today) h (by simp [Plans.initPlansState])

/-- Witness for the amended C5 on a concrete edit-free event sequence. -/
theorem c5_amended_witness :
    (∀ p, Plans.PlansEvent.editPlanClick p ∉
      [Plans.PlansEvent.toggleAssignForm, Plans.PlansEvent.togglePlanForm]) ∧
    ¬((Plans.runPlans Fix.plansApi1 (Plans.initPlansState "2026-01-01")
        [Plans.PlansEvent.toggleAssignForm, Plans.PlansEvent.togglePlanForm]).showPlanForm = true ∧
      (Plans.runPlans Fix.plansApi1 (Plans.initPlansState "2026-01-01")
        [Plans.PlansEvent.toggleAssignForm, Plans.PlansEvent.togglePlanForm]).showAssignForm = true) := by
  refine ⟨?_, c5_amended_forms_exclusive Fix.plansApi1 "2026-01-01" _ ?_⟩ <;>
    intro p <;> simp

/-- Every AttendancePage loading event preserves the equality between the
loadingCheckIn flag and the check-in-in-flight ghost variable. -/
theorem attLoadStep_checkin_inv (s : Attendance.AttLoad) (e : Attendance.AttLoadEvent)
    (h : s.loadingCheckIn = s.checkInInFlight) :
    (Attendance.attLoadStep s e).loadingCheckIn =
      (Attendance.attLoadStep s e).checkInInFlight := by
  cases e <;> simp only [Attendance.attLoadStep] <;> first
    | exact h
    | (split <;> simp [h])

/-- Counterexample to C4 as stated: on mount, fetchPlans sets the shared
loading flag, so after opening the plan form its submit control is
disabled (loading = true) while no submission of any form is in flight. -/
theorem c4_counterexample :
    (Plans.runPlansLoad [Plans.PlansLoadEvent.fetchPlansStart,
        Plans.PlansLoadEvent.togglePlanForm]).loading = true ∧
    (Plans.runPlansLoad [Plans.PlansLoadEvent.fetchPlansStart,
        Plans.PlansLoadEvent.togglePlanForm]).showPlanForm = true ∧
    (Plans.runPlansLoad [Plans.PlansLoadEvent.fetchPlansStart,
        Plans.PlansLoadEvent.togglePlanForm]).planSubmitInFlight = false ∧
    (Plans.runPlansLoad [Plans.PlansLoadEvent.fetchPlansStart,
        Plans.PlansLoadEvent.togglePlanForm]).assignSubmitInFlight = false ∧
    (Plans.runPlansLoad [Plans.PlansLoadEvent.fetchPlansStart,
        Plans.PlansLoadEvent.togglePlanForm]).deleteInFlight = false := by
  exact ⟨rfl, rfl, rfl, rfl, rfl⟩

/-- C4 (amended): in the Attendance view the check-in control's disabled
flag (loadingCheckIn) holds exactly while a check-in is in flight, so at
most one check-in is in flight at a time; in the Membership Plans view the
shared loading flag is set when an enabled submit starts and cleared on
both its success and its failure completion, but it is also set by list
fetches, so a submit control can be disabled while its owning operation is
idle. -/
theorem c4_amended_disabled_flags :
    (∀ evs, (Attendance.runAttLoad evs).loadingCheckIn =
      (Attendance.runAttLoad evs).checkInInFlight) ∧
    (∀ s : Plans.PlansLoad, s.loading = false →
      (Plans.plansLoadStep s Plans.PlansLoadEvent.planSubmitStart).loading = true ∧
      (Plans.plansLoadStep s Plans.PlansLoadEvent.planSubmitStart).planSubmitInFlight = true ∧
      (Plans.plansLoadStep s Plans.PlansLoadEvent.assignSubmitStart).loading = true ∧
      (Plans.plansLoadStep s Plans.PlansLoadEvent.assignSubmitStart).assignSubmitInFlight = true) ∧
    (∀ s : Plans.PlansLoad, s.planSubmitInFlight = true →
      (Plans.plansLoadStep s Plans.PlansLoadEvent.planSubmitEndSuccess).loading = false ∧
      (Plans.plansLoadStep s Plans.PlansLoadEvent.planSubmitEndSuccess).planSubmitInFlight = false ∧
      (Plans.plansLoadStep s Plans.PlansLoadEvent.planSubmitEndFailure).loading = false ∧
      (Plans.plansLoadStep s Plans.PlansLoadEvent.planSubmitEndFailure).planSubmitInFlight = false) ∧
    (∀ s : Plans.PlansLoad, s.assignSubmitInFlight = true →
      (Plans.plansLoadStep s Plans.PlansLoadEvent.assignSubmitEndSuccess).loading = false ∧
      (Plans.plansLoadStep s Plans.PlansLoadEvent.assignSubmitEndFailure).loading = false) := by
  refine ⟨?_, ?_, ?_, ?_⟩
  · have main : ∀ (l : List Attendance.AttLoadEvent) (s : Attendance.AttLoad),
        s.loadingCheckIn = s.checkInInFlight →
        (l.foldl Attendance.attLoadStep s).loadingCheckIn =
          (l.foldl Attendance.attLoadStep s).checkInInFlight := by
      intro l
      induction l with
      | nil => intro s h; simpa using h
      | cons e rest ih =>
        intro s h
        rw [List.foldl_cons]
        exact ih (Attendance.attLoadStep s e) (attLoadStep_checkin_inv s e h)
    exact fun evs => main evs Attendance.initAttLoad rfl
  · intro s h
    simp [Plans.plansLoadStep, h]
  · intro s h
    simp [Plans.plansLoadStep, h]
  · intro s h
    simp [Plans.plansLoadStep, h]

/-- Witness for the amended C4 at concrete machine states. -/
theorem c4_amended_witness :
    (Attendance.runAttLoad [Attendance.AttLoadEvent.checkInStart]).loadingCheckIn
      = (Attendance.runAttLoad [Attendance.AttLoadEvent.checkInStart]).checkInInFlight ∧
    (Plans.plansLoadStep { Plans.initPlansLoad with loading := false }
      Plans.PlansLoadEvent.planSubmitStart).loading = true ∧
    (Plans.plansLoadStep { Plans.initPlansLoad with planSubmitInFlight := true }
      Plans.PlansLoadEvent.planSubmitEndSuccess).loading = false := by
  have h := c4_amended_disabled_flags
  exact ⟨h.1 [Attendance.AttLoadEvent.checkInStart],
    (h.2.1 { Plans.initPlansLoad with loading := false } rfl).1,
    (h.2.2.1 { Plans.initPlansLoad with planSubmitInFlight := true } rfl).1⟩
